import Mathlib

/-!
Shallow embedding of the kvm-manager core (descriptor codec, metrics
derivation, telemetry store, domain reconciler) together with theorems
settling the specification claims.

Rust strings are modelled as `List Char`; the documents handled by the
codec are ASCII, so ASCII models of `char::is_whitespace` and
`to_lowercase` are faithful on every input the claims touch.  Machine
integers are `Nat` with explicit `% 2^64` where Rust wrapping matters.
Floating-point quantities (`f64`) are modelled as `ℚ`: every claim about
them concerns order and exact formula structure, not rounding.
External effects (libvirt calls, subprocesses, fresh UUIDs, clocks) are
passed in as explicit oracle arguments.
-/

namespace KvmSpec

/-- Rust `&str` / `String`, modelled as its character list. -/
abbrev Str := List Char

/-- ASCII fragment of Rust `char::is_whitespace` (and of regex `\s`). -/
def isWsChar (c : Char) : Bool :=
  c = ' ' || c = '\t' || c = '\n' || c = '\r' || c = '\x0b' || c = '\x0c'

/-- Rust `str::trim`, on the ASCII fragment. -/
def trimStr (s : Str) : Str :=
  ((s.dropWhile isWsChar).reverse.dropWhile isWsChar).reverse

/-- Rust `str::to_lowercase`, on the ASCII fragment. -/
def toLowerStr (s : Str) : Str :=
  s.map Char.toLower

/-- Tail-recursive worker for `findSub`: index of the leftmost
occurrence of `pat` in `hay`, counting from `i`. -/
def findSubFrom : Str → Str → Nat → Option Nat
  | hay, pat, i =>
    if pat.isPrefixOf hay then some i
    else
      match hay with
      | [] => none
      | _ :: t => findSubFrom t pat (i + 1)

/-- Rust `str::find(pat)`: index of the leftmost occurrence of `pat` as
a contiguous substring. -/
def findSub (hay pat : Str) : Option Nat :=
  findSubFrom hay pat 0

/-- Rust `str::contains(pat)`. -/
def containsSub (hay pat : Str) : Bool :=
  (findSub hay pat).isSome

/-- Decimal digit run parse: `some n` iff `s` is a nonempty run of ASCII
digits denoting `n`. -/
def digitsVal : Str → Option Nat
  | [] => none
  | [c] => if c.isDigit then some (c.toNat - '0'.toNat) else none
  | c :: rest =>
    if c.isDigit then
      (digitsVal rest).map (fun n => (c.toNat - '0'.toNat) * 10 ^ rest.length + n)
    else none

/-- Rust `str::parse::<uN>()` for an unsigned type with exclusive bound
`bound`: optional leading plus sign, then one or more digits, value in
range. -/
def parseUnsigned (s : Str) (bound : Nat) : Option Nat :=
  let body := match s with
    | '+' :: t => t
    | _ => s
  match digitsVal body with
  | some n => if n < bound then some n else none
  | none => none

/-- `XmlParser::extract_between_tags`: locate the literal start tag
`<tag>`, then the literal end tag `</tag>` after it, and return the
trimmed text in between.  Note the start tag carries no attributes: an
element written `<tag attr=v>` is NOT matched. -/
def extract_between_tags (xml tag : Str) : Option Str :=
  let startTag : Str := '<' :: tag ++ ['>']
  let endTag : Str := '<' :: '/' :: tag ++ ['>']
  match findSub xml startTag with
  | none => none
  | some startPos =>
    let rest := xml.drop (startPos + startTag.length)
    match findSub rest endTag with
    | none => none
    | some endPos => some (trimStr (rest.take endPos))

/-- Shorthand for embedding Rust string literals. -/
def lit (s : String) : Str := s.toList

/-- The quote class `['"]` of the attribute regexes. -/
def isQuoteChar (c : Char) : Bool := c = '\'' || c = '"'

/-- Rust `str::trim_matches(c)`: strip every leading and trailing `c`. -/
def trimMatches (c : Char) (s : Str) : Str :=
  ((s.dropWhile (fun x => x == c)).reverse.dropWhile (fun x => x == c)).reverse

/-- One backtracking step of the regex `<el\s+[^>]*attr=['"]([^'"]*)['"]`:
with `after` the text following `<el`, try `attr=` at offset `j`; the
captured value runs from after the opening quote to the next quote
(which must exist). -/
def attrTryQuoted (after attrEq : Str) (j : Nat) : Option Str :=
  if attrEq.isPrefixOf (after.drop j) then
    match after.drop (j + attrEq.length) with
    | [] => none
    | q :: r =>
      if isQuoteChar q then
        let cap := r.takeWhile (fun c => !(isQuoteChar c))
        if cap.length < r.length then some cap else none
      else none
  else none

/-- Greedy `[^>]*` backtracking: try `attr=` offsets from largest to
smallest (never 0: `\s+` consumes at least one character). -/
def attrScanQuoted (after attrEq : Str) : Nat → Option Str
  | 0 => none
  | j + 1 =>
    (attrTryQuoted after attrEq (j + 1)).orElse
      (fun _ => attrScanQuoted after attrEq j)

/-- One backtracking step of the fallback regex
`<el\s+[^>]*attr=([^>\s]*)`: the capture is the maximal run free of
whitespace and of the closing angle. -/
def attrTryBare (after attrEq : Str) (j : Nat) : Option Str :=
  if attrEq.isPrefixOf (after.drop j) then
    some ((after.drop (j + attrEq.length)).takeWhile
      (fun c => !(isWsChar c) && c != '>'))
  else none

/-- Greedy backtracking for the fallback regex. -/
def attrScanBare (after attrEq : Str) : Nat → Option Str
  | 0 => none
  | j + 1 =>
    (attrTryBare after attrEq (j + 1)).orElse
      (fun _ => attrScanBare after attrEq j)

/-- Attempt a whole-pattern match anchored right after `<el`: the next
character must be whitespace (`\s+`), and `attr=` may sit anywhere in the
following run of non-`>` characters. -/
def extractAttrAt (after attrEq : Str) (quoted : Bool) : Option Str :=
  match after with
  | [] => none
  | c :: _ =>
    if isWsChar c then
      let gapLen := (after.takeWhile (fun x => x != '>')).length
      if quoted then attrScanQuoted after attrEq gapLen
      else attrScanBare after attrEq gapLen
    else none

/-- Leftmost-first scan of the document for a start position where the
whole attribute pattern matches. -/
def extractAttrRun (xml el attrEq : Str) (quoted : Bool) : Option Str :=
  match xml with
  | [] => none
  | _ :: t =>
    (if ('<' :: el).isPrefixOf xml then
       extractAttrAt (xml.drop (el.length + 1)) attrEq quoted
     else none).orElse
      (fun _ => extractAttrRun t el attrEq quoted)

/-- `XmlParser::extract_attribute_value`: the quoted-value regex first;
if it finds nothing, the bare-value regex with surrounding double then
single quotes stripped from the capture. -/
def extract_attribute_value (xml el attr : Str) : Option Str :=
  let attrEq := attr ++ ['=']
  match extractAttrRun xml el attrEq true with
  | some v => some v
  | none =>
    (extractAttrRun xml el attrEq false).map
      (fun v => trimMatches '\'' (trimMatches '"' v))

/-- `XmlParser::parse_os_info`: libosinfo metadata id mapped through the
vendor table, else a case-insensitive content scan, else the
"linux"/"generic" default. -/
def parse_os_info (xml : Str) : Str × Option Str :=
  let metaHit : Option (Str × Option Str) :=
    if containsSub xml (lit "libosinfo:os") then
      match extract_attribute_value xml (lit "libosinfo:os") (lit "id") with
      | some osId =>
        if containsSub osId (lit "debian") then
          some (lit "linux", some (lit "debian"))
        else if containsSub osId (lit "ubuntu") then
          some (lit "linux", some (lit "ubuntu"))
        else if containsSub osId (lit "fedora") then
          some (lit "linux", some (lit "fedora"))
        else if containsSub osId (lit "rhel") || containsSub osId (lit "centos") then
          some (lit "linux", some (lit "rhel"))
        else if containsSub osId (lit "windows") then
          some (lit "windows", some (lit "win10"))
        else none
      | none => none
    else none
  match metaHit with
  | some r => r
  | none =>
    let xmlLower := toLowerStr xml
    if containsSub xmlLower (lit "windows") || containsSub xmlLower (lit "win10")
        || containsSub xmlLower (lit "win11") then
      (lit "windows", some (lit "win10"))
    else if containsSub xmlLower (lit "freebsd") || containsSub xmlLower (lit "openbsd") then
      (lit "bsd", some (lit "generic"))
    else
      (lit "linux", some (lit "generic"))

/-- `types.rs::StorageDevice` (size as `ℚ`, modelling `f64`). -/
structure StorageDevice where
  device : Str
  type_ : Str
  size_gb : ℚ
  path : Option Str
  bus : Str
  cache : Option Str

/-- `types.rs::NetworkInterface`. -/
structure NetworkInterface where
  type_ : Str
  mac_address : Option Str
  source : Str
  model : Str
  connected : Bool

/-- If the regex `<el\s+[^>]*>` matches a prefix of `xml`, the length of
the run matched by `\s+[^>]*` (a `>` must follow it). -/
def elemTagGapLen (xml el : Str) : Option Nat :=
  if ('<' :: el).isPrefixOf xml then
    let after := xml.drop (el.length + 1)
    match after with
    | [] => none
    | c :: _ =>
      if isWsChar c then
        let gapLen := (after.takeWhile (fun x => x != '>')).length
        if gapLen < after.length then some gapLen else none
      else none
  else none

/-- `regex::find_iter` for `<el\s+[^>]*>`: start positions of the
non-overlapping leftmost matches, scanning resumes after each match. -/
def findElemStarts (xml el : Str) (pos : Nat) : List Nat :=
  match h : xml with
  | [] => []
  | _ :: t =>
    match elemTagGapLen xml el with
    | some g =>
      pos :: findElemStarts (xml.drop (el.length + g + 2)) el (pos + el.length + g + 2)
    | none => findElemStarts t el (pos + 1)
  termination_by xml.length
  decreasing_by
    · subst h; simp only [List.length_drop, List.length_cons]; omega
    · subst h; simp

/-- `XmlParser::parse_single_disk`.  The external size probes (`qemu-img`
for file sources, `blockdev`/sysfs for block sources) are oracle
arguments; an absent probe yields size 0.  An element whose `device`
attribute is missing or differs from "disk" is skipped. -/
def parse_single_disk (dxml : Str) (fileSize blockSize : Str → Option ℚ) :
    Option StorageDevice :=
  match extract_attribute_value dxml (lit "disk") (lit "device") with
  | none => none
  | some deviceType =>
    if deviceType ≠ lit "disk" then none
    else
      let driverType := (extract_attribute_value dxml (lit "driver") (lit "type")).getD (lit "raw")
      let targetDev := (extract_attribute_value dxml (lit "target") (lit "dev")).getD (lit "vda")
      let targetBus := (extract_attribute_value dxml (lit "target") (lit "bus")).getD (lit "virtio")
      let sourcePath :=
        (extract_attribute_value dxml (lit "source") (lit "file")).orElse
          (fun _ => extract_attribute_value dxml (lit "source") (lit "dev"))
      let diskType := (extract_attribute_value dxml (lit "disk") (lit "type")).getD (lit "file")
      let sizeGb : ℚ :=
        match sourcePath with
        | some p =>
          if diskType = lit "block" then (blockSize p).getD 0
          else (fileSize p).getD 0
        | none => 0
      some { device := targetDev, type_ := driverType, size_gb := sizeGb,
             path := sourcePath, bus := targetBus,
             cache := extract_attribute_value dxml (lit "driver") (lit "cache") }

/-- `XmlParser::parse_storage_devices`: each `<disk ...>` match start is
paired with the next `</disk>`; elements without one, and non-"disk"
devices, are dropped. -/
def parse_storage_devices (xml : Str) (fileSize blockSize : Str → Option ℚ) :
    List StorageDevice :=
  (findElemStarts xml (lit "disk") 0).filterMap (fun s =>
    let fromStart := xml.drop s
    match findSub fromStart (lit "</disk>") with
    | some e => parse_single_disk (fromStart.take (e + 7)) fileSize blockSize
    | none => none)

/-- `XmlParser::parse_single_interface`. -/
def parse_single_interface (ixml : Str) : Option NetworkInterface :=
  match extract_attribute_value ixml (lit "interface") (lit "type") with
  | none => none
  | some interfaceType =>
    let mac := extract_attribute_value ixml (lit "mac") (lit "address")
    let netSource := extract_attribute_value ixml (lit "source") (lit "network")
    let bridgeSource := extract_attribute_value ixml (lit "source") (lit "bridge")
    let modelType := (extract_attribute_value ixml (lit "model") (lit "type")).getD (lit "rtl8139")
    some { type_ := interfaceType, mac_address := mac,
           source := ((netSource.orElse (fun _ => bridgeSource)).getD (lit "default")),
           model := modelType, connected := true }

/-- `XmlParser::parse_network_interfaces`. -/
def parse_network_interfaces (xml : Str) : List NetworkInterface :=
  (findElemStarts xml (lit "interface") 0).filterMap (fun s =>
    let fromStart := xml.drop s
    match findSub fromStart (lit "</interface>") with
    | some e => parse_single_interface (fromStart.take (e + 12))
    | none => none)

/-- `XmlParser::parse_vnc_port`: the sentinel "-1" means auto-assigned,
hence no port; otherwise the Rust `u16` parse. -/
def parse_vnc_port (xml : Str) : Option Nat :=
  if containsSub xml (lit "type='vnc'") then
    (extract_attribute_value xml (lit "graphics") (lit "port")).bind (fun p =>
      if p = lit "-1" then none else parseUnsigned p (2 ^ 16))
  else none

/-- `XmlParser::parse_spice_port`. -/
def parse_spice_port (xml : Str) : Option Nat :=
  if containsSub xml (lit "type='spice'") then
    (extract_attribute_value xml (lit "graphics") (lit "port")).bind (fun p =>
      if p = lit "-1" then none else parseUnsigned p (2 ^ 16))
  else none

/-- Memory extraction of `parse_vm_from_xml`: the text of a literal
`<memory>` element read as a `u64` KiB count and divided by 1024;
any failure leaves the `Default` value 0. -/
def parseMemoryMb (xml : Str) : Nat :=
  match extract_between_tags xml (lit "memory") with
  | some s =>
    match parseUnsigned s (2 ^ 64) with
    | some kib => kib / 1024
    | none => 0
  | none => 0

/-- vCPU extraction of `parse_vm_from_xml`: the text of a literal
`<vcpu>` element read as a `u32`; failure leaves the default 0. -/
def parseVcpus (xml : Str) : Nat :=
  match extract_between_tags xml (lit "vcpu") with
  | some s =>
    match parseUnsigned s (2 ^ 32) with
    | some n => n
    | none => 0
  | none => 0

/-- `xml_parser.rs::VmXmlInfo`. -/
structure VmXmlInfo where
  name : Str
  uuid : Str
  memory_mb : Nat
  vcpus : Nat
  os_type : Str
  os_variant : Option Str
  disk_size_gb : ℚ
  storage_devices : List StorageDevice
  network_interfaces : List NetworkInterface
  vnc_port : Option Nat
  spice_port : Option Nat
  description : Option Str

/-- `errors.rs::KvmError` (the variants the embedded operations raise). -/
inductive KvmError where
  | libvirtConnection : String → KvmError
  | vmNotFound : String → KvmError
  | invalidVmConfig : String → KvmError
  | vmOperationFailed : String → KvmError
deriving DecidableEq

/-- The record built by `XmlParser::parse_vm_from_xml`.  `freshUuid` is
the value `uuid::Uuid::new_v4()` would have produced, making the
function's one nondeterministic choice an explicit input. -/
def parse_vm_info (xml freshUuid : Str) (fileSize blockSize : Str → Option ℚ) :
    VmXmlInfo :=
  let devs := parse_storage_devices xml fileSize blockSize
  { name := (extract_between_tags xml (lit "name")).getD (lit "unknown")
    uuid := (extract_between_tags xml (lit "uuid")).getD freshUuid
    memory_mb := parseMemoryMb xml
    vcpus := parseVcpus xml
    os_type := (parse_os_info xml).1
    os_variant := (parse_os_info xml).2
    disk_size_gb := (devs.map (fun d => d.size_gb)).sum
    storage_devices := devs
    network_interfaces := parse_network_interfaces xml
    vnc_port := parse_vnc_port xml
    spice_port := parse_spice_port xml
    description := (extract_between_tags xml (lit "description")).orElse
      (fun _ => extract_between_tags xml (lit "title")) }

/-- `XmlParser::parse_vm_from_xml`: every control path of the Rust
function ends in `Ok(vm_info)`, so the embedding is total success. -/
def parse_vm_from_xml (xml freshUuid : Str) (fileSize blockSize : Str → Option ℚ) :
    Except KvmError VmXmlInfo :=
  .ok (parse_vm_info xml freshUuid fileSize blockSize)

/-- `types.rs::VmConfig` (with its nested `StorageConfig`,
`NetworkConfig` and `DisplayConfig` fields inlined; integer fields are
`u64`/`u32` values). -/
structure VmConfig where
  name : Str
  memory : Nat
  vcpus : Nat
  disk_size : Nat
  os_type : Str
  os_variant : Option Str
  description : Option Str
  network_name : Option Str
  network_model : Str
  storage_pool : Str
  storage_format : Str
  storage_bus : Str
  storage_cache : Str
  graphics_type : Str

/-- `VmManager::validate_vm_config`. -/
def validate_vm_config (c : VmConfig) : Except KvmError Unit :=
  if c.name = [] then
    .error (.invalidVmConfig "VM name cannot be empty")
  else if c.memory < 128 then
    .error (.invalidVmConfig "Memory must be at least 128 MB")
  else if c.vcpus = 0 then
    .error (.invalidVmConfig "Must have at least 1 vCPU")
  else if c.disk_size < 1 then
    .error (.invalidVmConfig "Disk size must be at least 1 GB")
  else
    .ok ()

/-- Decimal rendering of an unsigned integer (Rust `Display`). -/
def natStr (n : Nat) : Str := (Nat.repr n).toList

/-- `VmManager::generate_vm_xml`: the fixed descriptor template filled
with the validated configuration and the freshly minted identity.  The
Rust function wraps the string in `Ok` unconditionally, so the embedding
returns it directly. -/
def generate_vm_xml (c : VmConfig) (vm_id : Str) : Str :=
  lit "<domain type='kvm'>\n  <name>" ++ c.name ++
  lit "</name>\n  <uuid>" ++ vm_id ++
  lit "</uuid>\n  <memory unit='MiB'>" ++ natStr c.memory ++
  lit "</memory>\n  <currentMemory unit='MiB'>" ++ natStr c.memory ++
  lit "</currentMemory>\n  <vcpu placement='static'>" ++ natStr c.vcpus ++
  lit "</vcpu>\n  <os>\n    <type arch='x86_64' machine='pc-q35-6.2'>hvm</type>\n    <boot dev='hd'/>\n    <boot dev='cdrom'/>\n  </os>\n  <features>\n    <acpi/>\n    <apic/>\n    <vmport state='off'/>\n  </features>\n  <cpu mode='host-model' check='partial'/>\n  <clock offset='utc'>\n    <timer name='rtc' tickpolicy='catchup'/>\n    <timer name='pit' tickpolicy='delay'/>\n    <timer name='hpet' present='no'/>\n  </clock>\n  <on_poweroff>destroy</on_poweroff>\n  <on_reboot>restart</on_reboot>\n  <on_crash>destroy</on_crash>\n  <pm>\n    <suspend-to-mem enabled='no'/>\n    <suspend-to-disk enabled='no'/>\n  </pm>\n  <devices>\n    <emulator>/usr/bin/qemu-system-x86_64</emulator>\n    <disk type='file' device='disk'>\n      <driver name='qemu' type='" ++ c.storage_format ++
  lit "' cache='" ++ c.storage_cache ++
  lit "'/>\n      <source file='/var/lib/libvirt/images/" ++ c.name ++
  lit "." ++ c.storage_format ++
  lit "'/>\n      <target dev='vda' bus='" ++ c.storage_bus ++
  lit "'/>\n      <address type='pci' domain='0x0000' bus='0x03' slot='0x00' function='0x0'/>\n    </disk>\n    <controller type='usb' index='0' model='qemu-xhci'>\n      <address type='pci' domain='0x0000' bus='0x02' slot='0x00' function='0x0'/>\n    </controller>\n    <interface type='network'>\n      <source network='" ++ (c.network_name.getD (lit "default")) ++
  lit "'/>\n      <model type='" ++ c.network_model ++
  lit "'/>\n      <address type='pci' domain='0x0000' bus='0x01' slot='0x00' function='0x0'/>\n    </interface>\n    <graphics type='" ++ c.graphics_type ++
  lit "' port='-1' autoport='yes' listen='127.0.0.1'>\n      <listen type='address' address='127.0.0.1'/>\n    </graphics>\n    <video>\n      <model type='qxl' ram='65536' vram='65536' vgamem='16384' heads='1' primary='yes'/>\n      <address type='pci' domain='0x0000' bus='0x00' slot='0x02' function='0x0'/>\n    </video>\n    <memballoon model='virtio'>\n      <address type='pci' domain='0x0000' bus='0x04' slot='0x00' function='0x0'/>\n    </memballoon>\n  </devices>\n</domain>"

/-! ## MetricsSampler (vm_manager.rs and monitoring.rs) -/

/-- libvirt's running-state code (`VIR_DOMAIN_RUNNING`). -/
def VIR_DOMAIN_RUNNING : Nat := 1

/-- A successful `domain.get_info()` read. -/
structure DomainInfoRead where
  state : Nat
  memory : Nat
  nrVirtCpu : Nat
  cpuTime : Nat

/-- `MonitoringService::calculate_cpu_usage`.  The two `get_info` reads
and the wall-clock difference (nanoseconds, `ℚ` for `f64`) are oracle
inputs; `none` models a failed read.  Every error path yields `Ok(0.0)`
in Rust, so the embedding is a total function. -/
def calculate_cpu_usage (info1 info2 : Option DomainInfoRead) (wallDiff : ℚ) : ℚ :=
  match info1 with
  | none => 0
  | some i1 =>
    if i1.state ≠ VIR_DOMAIN_RUNNING then 0
    else
      match info2 with
      | none => 0
      | some i2 =>
        let cpuDiff : ℚ := ((i2.cpuTime - i1.cpuTime : Nat) : ℚ)
        if 0 < wallDiff then
          min (cpuDiff / wallDiff * 100 * (i1.nrVirtCpu : ℚ)) 100
        else 0

/-- `VmManager::get_cpu_usage_percentage`: two accumulated CPU-time
samples taken 100 ms apart; a positive delta is divided by the fixed
10^8 ns interval and capped at 100, otherwise the process-table
fallback (an oracle) is consulted. -/
def get_cpu_usage_percentage (cpu1 cpu2 : Option Nat) (procFallback : Option ℚ) :
    Option ℚ :=
  match cpu1, cpu2 with
  | some c1, some c2 =>
    let timeDiff := c2 - c1
    if 0 < timeDiff then some (min ((timeDiff : ℚ) / 100000000) 100)
    else procFallback
  | _, _ => procFallback

/-- `VIR_DOMAIN_MEMORY_STAT_UNUSED`. -/
def STAT_UNUSED : Nat := 4
/-- `VIR_DOMAIN_MEMORY_STAT_AVAILABLE`. -/
def STAT_AVAILABLE : Nat := 5
/-- `VIR_DOMAIN_MEMORY_STAT_ACTUAL_BALLOON`. -/
def STAT_ACTUAL_BALLOON : Nat := 6

/-- One memory-statistics counter returned by `domain.memory_stats`. -/
structure MemStat where
  tag : Nat
  val : Nat

/-- Rust `u64` wrapping subtraction (the release-profile semantics of
`a - b`), for `a, b < 2^64`. -/
def u64sub (a b : Nat) : Nat := (a + 2 ^ 64 - b) % 2 ^ 64

/-- The counter-accumulation loop of `VmManager::get_memory_stats`:
each recognized tag overwrites its accumulator (so the last occurrence
wins), starting from `(info.memory / 1024, 0, 0)`. -/
def memStatsFold (stats : List MemStat) (infoMemoryKiB : Nat) : Nat × Nat × Nat :=
  stats.foldl
    (fun acc st =>
      if st.tag = STAT_ACTUAL_BALLOON then (st.val / 1024, acc.2.1, acc.2.2)
      else if st.tag = STAT_AVAILABLE then (acc.1, st.val / 1024, acc.2.2)
      else if st.tag = STAT_UNUSED then (acc.1, acc.2.1, st.val / 1024)
      else acc)
    (infoMemoryKiB / 1024, 0, 0)

/-- The detailed path of `VmManager::get_memory_stats`: used =
actual − available if available > 0, else actual − unused if
unused > 0, else actual; returns (used, total). -/
def get_memory_stats_detailed (stats : List MemStat) (infoMemoryKiB : Nat) : Nat × Nat :=
  let acc := memStatsFold stats infoMemoryKiB
  let used :=
    if 0 < acc.2.1 then u64sub acc.1 acc.2.1
    else if 0 < acc.2.2 then u64sub acc.1 acc.2.2
    else acc.1
  (used, acc.1)

/-- `VmManager::get_memory_stats`: the detailed statistics call when it
succeeds, else the coarse `(total, total)` fallback. -/
def get_memory_stats (stats : Option (List MemStat)) (infoMemoryKiB : Nat) : Nat × Nat :=
  match stats with
  | some s => get_memory_stats_detailed s infoMemoryKiB
  | none => (infoMemoryKiB / 1024, infoMemoryKiB / 1024)

/-- `MonitoringService::check_guest_agent`: a pure scan of the domain
descriptor for a recognized guest-agent channel marker; a failed
descriptor fetch (`none`) yields false. -/
def check_guest_agent (xmlDesc : Option Str) : Bool :=
  match xmlDesc with
  | some xml =>
    containsSub xml (lit "org.qemu.guest_agent.0") || containsSub xml (lit "guest_agent")
  | none => false

/-- `types.rs::VmStats` (timestamp as `Int`). -/
structure VmStatsRec where
  cpu_usage : ℚ
  memory_usage : Nat
  memory_total : Nat
  disk_read : Nat
  disk_write : Nat
  network_rx : Nat
  network_tx : Nat
  uptime : Nat
  timestamp : Int
  guest_agent_connected : Bool

/-- The hypervisor-side readings `VmManager::get_vm_stats` consumes,
gathered as one oracle.  `xmlDesc` is the domain descriptor (used by
`check_guest_agent`; `get_vm_stats` itself never reads it). -/
structure StatsOracle where
  isActive : Bool
  info : DomainInfoRead
  cpu1 : Option Nat
  cpu2 : Option Nat
  procCpu : Option ℚ
  memStats : Option (List MemStat)
  diskRead : Nat
  diskWrite : Nat
  networkRx : Nat
  networkTx : Nat
  uptime : Nat
  now : Int
  xmlDesc : Option Str

/-- `VmManager::get_vm_stats`: fails for an inactive domain, otherwise
assembles the snapshot; the `guest_agent_connected` field is the
literal `false` of the Rust constructor. -/
def get_vm_stats (o : StatsOracle) : Except KvmError VmStatsRec :=
  if ¬ o.isActive then .error (.vmOperationFailed "VM is not running")
  else
    let cpu := (get_cpu_usage_percentage o.cpu1 o.cpu2 o.procCpu).getD 0
    let ms := get_memory_stats o.memStats o.info.memory
    .ok { cpu_usage := cpu, memory_usage := ms.1, memory_total := ms.2,
          disk_read := o.diskRead, disk_write := o.diskWrite,
          network_rx := o.networkRx, network_tx := o.networkTx,
          uptime := o.uptime, timestamp := o.now,
          guest_agent_connected := false }

/-! ## TelemetryStore (monitoring.rs) -/

/-- `monitoring.rs::MetricPoint` (timestamp in seconds as `Int`, value
as `ℚ`). -/
structure MetricPointRec where
  timestamp : Int
  value : ℚ
deriving DecidableEq

/-- The `metrics_history` map, keyed by the formatted "vmId:metric"
string; a key never stored maps to the empty series, matching
`get(&key).unwrap_or(&Vec::new())`. -/
def MetricsHistory := Str → List MetricPointRec

/-- `format!("{}:{}", vm_id, metric_type)`. -/
def metricKey (vmId metricType : Str) : Str := vmId ++ ':' :: metricType

/-- `MonitoringService::store_metric`: append one point at the current
instant to the addressed series. -/
def store_metric (h : MetricsHistory) (vmId metricType : Str) (now : Int) (value : ℚ) :
    MetricsHistory :=
  fun k =>
    if k = metricKey vmId metricType then h k ++ [⟨now, value⟩] else h k

/-- `chrono::Duration::from_std` succeeds iff the window fits in `i64`
milliseconds; `get_metric_history` replaces a failing conversion with
the zero duration (`unwrap_or_default`). -/
def fromStdOk (wSecs : Nat) : Bool := 1000 * wSecs ≤ 2 ^ 63 - 1

/-- `MonitoringService::get_metric_history`: the stored series filtered
to the points strictly newer than `now − window` (or strictly newer
than `now` when the window does not convert). -/
def get_metric_history (h : MetricsHistory) (vmId metricType : Str) (now : Int)
    (wSecs : Nat) : List MetricPointRec :=
  let cutoff : Int := now - (if fromStdOk wSecs then (wSecs : Int) else 0)
  (h (metricKey vmId metricType)).filter (fun p => cutoff < p.timestamp)

/-- `MonitoringService::cleanup_old_metrics`: every series is retained
past the 24-hour cutoff.  (The removal of empty series is invisible in
this model: a missing key already reads as the empty series.) -/
def cleanup_old_metrics (h : MetricsHistory) (now : Int) : MetricsHistory :=
  fun k => (h k).filter (fun p => now - 86400 < p.timestamp)

/-! ## DomainReconciler lifecycle (vm_manager.rs) -/

/-- A cache entry; only identity matters to the lifecycle claims. -/
structure VirtualMachineRec where
  id : Str
  name : Str

/-- The reconciler's `vm_cache` (`HashMap<String, VirtualMachine>`). -/
def VmCache := Str → Option VirtualMachineRec

/-- `HashMap::remove`. -/
def cacheRemove (c : VmCache) (k : Str) : VmCache :=
  fun x => if x = k then none else c x

/-- Hypervisor-side outcomes for one lifecycle call: domain lookup,
activity query, graceful stop, forced stop, undefine. -/
structure LifecycleOracle where
  found : Bool
  activeQueryOk : Bool
  isActive : Bool
  shutdownOk : Bool
  destroyOk : Bool
  undefineOk : Bool

/-- Requests `delete_vm`/`stop_vm` issue against the hypervisor. -/
inductive DomEffect where
  | shutdownReq
  | destroyReq
  | undefineReq
deriving DecidableEq

/-- `VmManager::stop_vm`: graceful shutdown first, forced destroy only
when the graceful request fails. -/
def stop_vm (o : LifecycleOracle) : Except KvmError Unit × List DomEffect :=
  if ¬ o.found then (.error (.vmNotFound "vm"), [])
  else if o.shutdownOk then (.ok (), [.shutdownReq])
  else if o.destroyOk then (.ok (), [.shutdownReq, .destroyReq])
  else (.error (.vmOperationFailed "Failed to stop VM"), [.shutdownReq, .destroyReq])

/-- `VmManager::delete_vm`: look the domain up, stop it if active,
undefine it, and only then remove the cache entry; any failing step
returns before the cache is touched. -/
def delete_vm (cache : VmCache) (vm_id : Str) (o : LifecycleOracle) :
    Except KvmError Unit × VmCache × List DomEffect :=
  if ¬ o.found then (.error (.vmNotFound "vm"), cache, [])
  else if ¬ o.activeQueryOk then (.error (.libvirtConnection "is_active"), cache, [])
  else
    let stopStep := if o.isActive then stop_vm o else (.ok (), [])
    match stopStep with
    | (.error e, fx) => (.error e, cache, fx)
    | (.ok _, fx) =>
      if o.undefineOk then
        (.ok (), cacheRemove cache vm_id, fx ++ [.undefineReq])
      else
        (.error (.vmOperationFailed "Failed to delete VM"), cache, fx ++ [.undefineReq])

/-- Hypervisor-side outcomes for `create_vm`: the freshly minted UUID,
the define/start outcomes, and the cache produced by the final
`refresh_vm_cache` when it succeeds. -/
structure CreateOracle where
  freshId : Str
  defineOk : Bool
  startOk : Bool
  refreshResult : Except KvmError VmCache

/-- Requests `create_vm` issues. -/
inductive HvEffect where
  | defineDomain (xml : Str)
  | startDomain
  | createStorage
  | refreshCache
deriving DecidableEq

/-- `VmManager::create_vm`: validate, mint an identity, generate the
descriptor, define, start, provision storage (infallible in the
source), refresh the cache.  Validation failure returns before any
hypervisor request is issued. -/
def create_vm (cache : VmCache) (config : VmConfig) (o : CreateOracle) :
    Except KvmError Str × VmCache × List HvEffect :=
  match validate_vm_config config with
  | .error e => (.error e, cache, [])
  | .ok _ =>
    let vm_id := o.freshId
    let xml := generate_vm_xml config vm_id
    if ¬ o.defineOk then
      (.error (.vmOperationFailed "Failed to create VM"), cache, [.defineDomain xml])
    else if ¬ o.startOk then
      (.error (.vmOperationFailed "Failed to start VM"), cache,
        [.defineDomain xml, .startDomain])
    else
      match o.refreshResult with
      | .error e =>
        (.error e, cache,
          [.defineDomain xml, .startDomain, .createStorage, .refreshCache])
      | .ok newCache =>
        (.ok vm_id, newCache,
          [.defineDomain xml, .startDomain, .createStorage, .refreshCache])

/-! ## Concrete instances used by the claim theorems -/

/-- Size oracle for environments without the external inspection
tools: every probe fails, so parsed sizes default to 0. -/
def noSize : Str → Option ℚ := fun _ => none

/-- The specification's example configuration: name "test-vm", 2048 MB,
2 vCPUs, 10 GB disk. -/
def cfgTest : VmConfig :=
  { name := lit "test-vm", memory := 2048, vcpus := 2, disk_size := 10,
    os_type := lit "linux", os_variant := none, description := none,
    network_name := none, network_model := lit "virtio",
    storage_pool := lit "default", storage_format := lit "qcow2",
    storage_bus := lit "virtio", storage_cache := lit "none",
    graphics_type := lit "spice" }

/-- The descriptor `generate_vm_xml` produces for `cfgTest`. -/
def xmlTest : Str :=
  generate_vm_xml cfgTest (lit "11111111-2222-3333-4444-555555555555")

/-- A document that is not well-formed at all. -/
def garbageDoc : Str := lit "<<< not a descriptor >>>"

/-- A minimal descriptor missing every optional (and mandatory) field
the parser reads. -/
def minimalDoc : Str := lit "<domain><devices/></domain>"

/-- A disk element with no `<driver>` child (so no declared format). -/
def diskNoDriver : Str :=
  lit "<disk type='file' device='disk'>\n  <target dev='vda' bus='virtio'/>\n</disk>"

/-- An interface element with no `<model>` child. -/
def ifaceNoModel : Str :=
  lit "<interface type='network'>\n  <source network='default'/>\n</interface>"

/-- The storage record `parse_single_disk` yields for `diskNoDriver`. -/
def dRaw : StorageDevice :=
  { device := lit "vda", type_ := lit "raw", size_gb := 0,
    path := none, bus := lit "virtio", cache := none }

/-- The interface record `parse_single_interface` yields for
`ifaceNoModel`. -/
def niDefault : NetworkInterface :=
  { type_ := lit "network", mac_address := none, source := lit "default",
    model := lit "rtl8139", connected := true }

/-- The spec's memory example: a descriptor whose memory element
carries the `unit='KiB'` attribute, as libvirt always writes it. -/
def kibDoc : Str := lit "<domain><memory unit='KiB'>2097152</memory></domain>"

/-- A descriptor declaring the QEMU guest-agent channel. -/
def agentXml : Str :=
  lit "<domain><devices><channel type='unix'><target type='virtio' name='org.qemu.guest_agent.0'/></channel></devices></domain>"

/-- Readings for an active domain whose descriptor declares the
guest-agent channel. -/
def agentOracle : StatsOracle :=
  { isActive := true, info := ⟨1, 1048576, 1, 0⟩, cpu1 := none, cpu2 := none,
    procCpu := none, memStats := none, diskRead := 0, diskWrite := 0,
    networkRx := 0, networkTx := 0, uptime := 0, now := 0,
    xmlDesc := some agentXml }

/-- A descriptor with a literal uuid element. -/
def uuidDoc : Str := lit "<domain><uuid>abc-123</uuid></domain>"

/-- A telemetry state holding one point (t = 95) in the cpu series of
one domain. -/
def c7state : MetricsHistory :=
  store_metric (fun _ => []) (lit "vm") (lit "cpu_usage") 95 7

/-- Detailed memory counters whose "available" exceeds the balloon
size. -/
def badMemStats : List MemStat := [⟨STAT_ACTUAL_BALLOON, 1024⟩, ⟨STAT_AVAILABLE, 2048⟩]

/-- Detailed memory counters with available below the balloon size. -/
def okMemStats : List MemStat := [⟨STAT_ACTUAL_BALLOON, 2048⟩, ⟨STAT_AVAILABLE, 1024⟩]

/-- An invalid configuration: memory below the 128 MB floor. -/
def cfgBad : VmConfig :=
  { cfgTest with name := lit "small-vm", memory := 64 }

/-- An empty reconciler cache. -/
def emptyCache : VmCache := fun _ => none

/-- A cache holding one domain under id "d1". -/
def oneCache : VmCache :=
  fun k => if k = lit "d1" then some ⟨lit "d1", lit "vm-one"⟩ else none

/-- A lifecycle run in which every hypervisor call succeeds on an
active domain. -/
def delOkOracle : LifecycleOracle :=
  { found := true, activeQueryOk := true, isActive := true,
    shutdownOk := true, destroyOk := true, undefineOk := true }

/-- A lifecycle run in which the undefine call fails. -/
def delFailOracle : LifecycleOracle :=
  { found := true, activeQueryOk := true, isActive := false,
    shutdownOk := true, destroyOk := true, undefineOk := false }

/-- A create run in which every hypervisor call would succeed. -/
def createOkOracle : CreateOracle :=
  { freshId := lit "fresh-id", defineOk := true, startOk := true,
    refreshResult := .ok emptyCache }

/-! ## Claim theorems -/

set_option maxRecDepth 40000 in
/-- C1: the claim says re-parsing a generated descriptor recovers name,
memory and vCPU count.  At the specification's own example
configuration (valid under `validate_vm_config`), re-parsing recovers
the name but returns memory 0 and vCPUs 0 instead of 2048 and 2: the
generator writes `<memory unit='MiB'>` and `<vcpu placement='static'>`
while the parser only matches the attribute-free `<memory>`/`<vcpu>`
start tags (and would divide by 1024 as if the MiB value were KiB even
if it did match). -/
theorem C1_roundtrip_loses_memory_and_vcpus :
    validate_vm_config cfgTest = .ok () ∧
    cfgTest.memory = 2048 ∧ cfgTest.vcpus = 2 ∧
    (parse_vm_info xmlTest (lit "f") noSize noSize).name = lit "test-vm" ∧
    (parse_vm_info xmlTest (lit "f") noSize noSize).memory_mb = 0 ∧
    (parse_vm_info xmlTest (lit "f") noSize noSize).vcpus = 0 :=
  ⟨rfl, rfl, rfl, rfl, rfl, rfl⟩

set_option maxRecDepth 8000 in
/-- C3: the claim says a descriptor containing
`<memory unit='KiB'>2097152</memory>` parses to memory_mb = 2048.  On
such a document the parser's literal `<memory>` search fails and the
field keeps its default 0. -/
theorem C3_kib_example_yields_zero :
    containsSub kibDoc (lit "<memory unit='KiB'>2097152</memory>") = true ∧
    (parse_vm_info kibDoc (lit "f") noSize noSize).memory_mb = 0 ∧
    (0 : Nat) ≠ 2048 :=
  ⟨rfl, rfl, by decide⟩

set_option maxRecDepth 8000 in
/-- C6: the claim says the `guest_agent_connected` flag returned by
`get_vm_stats` is true iff the descriptor declares a recognized
guest-agent channel.  For an active domain whose descriptor does
declare the channel (`check_guest_agent` sees it), `get_vm_stats`
still reports false: the Rust constructor hardcodes the field. -/
theorem C6_guest_agent_flag_always_false :
    check_guest_agent agentOracle.xmlDesc = true ∧
    (get_vm_stats agentOracle).map (fun s => s.guest_agent_connected) = .ok false :=
  ⟨rfl, rfl⟩

/-- C10: parse is deterministic in the identifier exactly when the
document carries a literal uuid element; otherwise the returned uuid is
the freshly generated value, so two parses with distinct fresh values
disagree. -/
theorem C10_uuid_fresh_iff_absent (xml u1 u2 : Str) (fs bs : Str → Option ℚ) :
    (∀ s, extract_between_tags xml (lit "uuid") = some s →
      (parse_vm_info xml u1 fs bs).uuid = s ∧
      (parse_vm_info xml u1 fs bs).uuid = (parse_vm_info xml u2 fs bs).uuid) ∧
    (extract_between_tags xml (lit "uuid") = none →
      (parse_vm_info xml u1 fs bs).uuid = u1 ∧
      (u1 ≠ u2 →
        (parse_vm_info xml u1 fs bs).uuid ≠ (parse_vm_info xml u2 fs bs).uuid)) := by
  constructor
  · intro s hs
    simp [parse_vm_info, hs]
  · intro hn
    simp [parse_vm_info, hn]

/-- Witness for C10 at concrete documents: a descriptor with a uuid
element parses to that uuid; one without parses to the fresh value, so
distinct fresh values give distinct identifiers. -/
theorem C10_uuid_fresh_iff_absent_witness :
    (parse_vm_info uuidDoc (lit "a") noSize noSize).uuid = lit "abc-123" ∧
    (parse_vm_info minimalDoc (lit "a") noSize noSize).uuid ≠
      (parse_vm_info minimalDoc (lit "b") noSize noSize).uuid := by
  refine ⟨?_, ?_⟩
  · exact ((C10_uuid_fresh_iff_absent uuidDoc (lit "a") (lit "b") noSize noSize).1
      (lit "abc-123") rfl).1
  · exact ((C10_uuid_fresh_iff_absent minimalDoc (lit "a") (lit "b") noSize noSize).2
      rfl).2 (by decide)

/-- C2 counterexample: the claim says parse raises when the document is
not well-formed enough to read the mandatory fields.  On a document
that is not a descriptor at all (no name element), parse still
succeeds, substituting "unknown" for the name. -/
theorem C2_parse_raises_counterexample :
    (parse_vm_from_xml garbageDoc (lit "f") noSize noSize).isOk = true ∧
    extract_between_tags garbageDoc (lit "name") = none ∧
    (parse_vm_info garbageDoc (lit "f") noSize noSize).name = lit "unknown" :=
  ⟨rfl, rfl, rfl⟩

/-- C2 (amended): parse NEVER returns an error, for any document;
unreadable mandatory fields take fallbacks (name "unknown", the fresh
uuid) and missing optional fields take the documented defaults: OS
classification "linux"/"generic" when no vendor marker appears, disk
driver format "raw" when the disk declares none, NIC model "rtl8139"
when the interface declares none. -/
theorem C2_parse_total_with_defaults
    (xml u : Str) (fs bs : Str → Option ℚ) (dxml ixml : Str) :
    (parse_vm_from_xml xml u fs bs).isOk = true ∧
    (extract_between_tags xml (lit "name") = none →
      (parse_vm_info xml u fs bs).name = lit "unknown") ∧
    (containsSub xml (lit "libosinfo:os") = false →
     containsSub (toLowerStr xml) (lit "windows") = false →
     containsSub (toLowerStr xml) (lit "win10") = false →
     containsSub (toLowerStr xml) (lit "win11") = false →
     containsSub (toLowerStr xml) (lit "freebsd") = false →
     containsSub (toLowerStr xml) (lit "openbsd") = false →
      (parse_vm_info xml u fs bs).os_type = lit "linux" ∧
      (parse_vm_info xml u fs bs).os_variant = some (lit "generic")) ∧
    (extract_attribute_value dxml (lit "driver") (lit "type") = none →
      ∀ dv, parse_single_disk dxml fs bs = some dv → dv.type_ = lit "raw") ∧
    (extract_attribute_value ixml (lit "model") (lit "type") = none →
      ∀ nv, parse_single_interface ixml = some nv → nv.model = lit "rtl8139") := by
  refine ⟨rfl, ?_, ?_, ?_, ?_⟩
  · intro hn
    simp [parse_vm_info, hn]
  · intro h0 h1 h2 h3 h4 h5
    constructor <;> simp [parse_vm_info, parse_os_info, h0, h1, h2, h3, h4, h5]
  · intro hd dv hdv
    unfold parse_single_disk at hdv
    cases hdev : extract_attribute_value dxml (lit "disk") (lit "device") with
    | none => simp [hdev] at hdv
    | some devType =>
      rw [hdev] at hdv
      dsimp only at hdv
      rw [hd] at hdv
      split at hdv
      · simp at hdv
      · cases hdv
        rfl
  · intro hm nv hnv
    unfold parse_single_interface at hnv
    cases hit : extract_attribute_value ixml (lit "interface") (lit "type") with
    | none => simp [hit] at hnv
    | some it =>
      rw [hit] at hnv
      dsimp only at hnv
      rw [hm] at hnv
      cases hnv
      rfl

/-- Witness for C2 at concrete inputs: a minimal descriptor parses
successfully with the fallback name and default OS classification, a
driverless disk gets format "raw", a modelless interface gets model
"rtl8139". -/
theorem C2_parse_total_with_defaults_witness :
    (parse_vm_from_xml minimalDoc (lit "f") noSize noSize).isOk = true ∧
    (parse_vm_info minimalDoc (lit "f") noSize noSize).name = lit "unknown" ∧
    (parse_vm_info minimalDoc (lit "f") noSize noSize).os_type = lit "linux" ∧
    (parse_vm_info minimalDoc (lit "f") noSize noSize).os_variant = some (lit "generic") ∧
    dRaw.type_ = lit "raw" ∧ niDefault.model = lit "rtl8139" := by
  have h := C2_parse_total_with_defaults minimalDoc (lit "f") noSize noSize
    diskNoDriver ifaceNoModel
  have hos := h.2.2.1 rfl rfl rfl rfl rfl rfl
  exact ⟨h.1, h.2.1 rfl, hos.1, hos.2,
    h.2.2.2.1 rfl dRaw rfl, h.2.2.2.2 rfl niDefault rfl⟩

/-- C4 counterexample: the claim's formula is
min(100, (Δcpu/Δwall) × vCPUs).  With Δcpu = Δwall = 10^8 ns and one
vCPU the code computes 100 (it additionally multiplies the ratio by
100 to make a percentage), while the claim's formula yields 1. -/
theorem C4_cpu_formula_counterexample :
    calculate_cpu_usage (some ⟨1, 1048576, 1, 0⟩) (some ⟨1, 1048576, 1, 100000000⟩)
        100000000 = 100 ∧
    min ((((100000000 : Nat) - 0 : Nat) : ℚ) / 100000000 * ((1 : Nat) : ℚ)) 100 = 1 ∧
    (100 : ℚ) ≠ 1 := by
  refine ⟨?_, by norm_num, by norm_num⟩
  norm_num [calculate_cpu_usage, VIR_DOMAIN_RUNNING]

/-- C4 (amended): the monitoring CPU computation returns
min(100, (Δcpu/Δwall) × 100 × vCPUs) for a running domain with a
positive wall-clock delta, always lies in [0, 100], and is exactly 0
when the domain is not in the running state. -/
theorem C4_cpu_usage_bounds (info1 info2 : Option DomainInfoRead) (wallDiff : ℚ) :
    0 ≤ calculate_cpu_usage info1 info2 wallDiff ∧
    calculate_cpu_usage info1 info2 wallDiff ≤ 100 ∧
    (∀ i1, info1 = some i1 → i1.state ≠ VIR_DOMAIN_RUNNING →
      calculate_cpu_usage info1 info2 wallDiff = 0) ∧
    (∀ i1 i2, info1 = some i1 → info2 = some i2 → i1.state = VIR_DOMAIN_RUNNING →
      0 < wallDiff →
      calculate_cpu_usage info1 info2 wallDiff =
        min (((i2.cpuTime - i1.cpuTime : Nat) : ℚ) / wallDiff * 100 * (i1.nrVirtCpu : ℚ))
          100) := by
  refine ⟨?_, ?_, ?_, ?_⟩
  · unfold calculate_cpu_usage
    rcases info1 with _ | i1
    · exact le_refl 0
    · rcases info2 with _ | i2 <;> simp only
      · split <;> norm_num
      · split
        · norm_num
        · split
          · refine le_min ?_ (by norm_num)
            have hw : (0 : ℚ) < wallDiff := by assumption
            positivity
          · norm_num
  · unfold calculate_cpu_usage
    rcases info1 with _ | i1
    · norm_num
    · rcases info2 with _ | i2 <;> simp only
      · split <;> norm_num
      · split
        · norm_num
        · split
          · exact min_le_right _ _
          · norm_num
  · rintro i1 rfl hstate
    simp [calculate_cpu_usage, hstate]
  · rintro i1 i2 rfl rfl hstate hw
    simp [calculate_cpu_usage, hstate, hw]

/-- Witness for C4: at a stopped domain the usage is 0, and at a
running domain with Δcpu = 5·10^7, Δwall = 10^8, 2 vCPUs the usage is
min(100, 0.5 × 100 × 2) = 100, inside [0, 100]. -/
theorem C4_cpu_usage_bounds_witness :
    calculate_cpu_usage (some ⟨5, 0, 1, 0⟩) none 0 = 0 ∧
    calculate_cpu_usage (some ⟨1, 0, 2, 0⟩) (some ⟨1, 0, 2, 50000000⟩) 100000000 =
      min ((((50000000 : Nat) - 0 : Nat) : ℚ) / 100000000 * 100 * ((2 : Nat) : ℚ)) 100 ∧
    0 ≤ calculate_cpu_usage (some ⟨1, 0, 2, 0⟩) (some ⟨1, 0, 2, 50000000⟩) 100000000 := by
  refine ⟨?_, ?_, ?_⟩
  · exact (C4_cpu_usage_bounds (some ⟨5, 0, 1, 0⟩) none 0).2.2.1 ⟨5, 0, 1, 0⟩ rfl
      (by decide)
  · exact (C4_cpu_usage_bounds (some ⟨1, 0, 2, 0⟩) (some ⟨1, 0, 2, 50000000⟩)
      100000000).2.2.2 ⟨1, 0, 2, 0⟩ ⟨1, 0, 2, 50000000⟩ rfl rfl rfl (by norm_num)
  · exact (C4_cpu_usage_bounds (some ⟨1, 0, 2, 0⟩) (some ⟨1, 0, 2, 50000000⟩)
      100000000).1

/-- Wrapping `u64` subtraction stays below the minuend when no
underflow occurs. -/
theorem u64sub_le_of_le (a b : Nat) (hb : b ≤ a) (ha : a < 2 ^ 64) : u64sub a b ≤ a := by
  unfold u64sub
  have h1 : a + 2 ^ 64 - b = 2 ^ 64 + (a - b) := by omega
  rw [h1, Nat.add_mod_left, Nat.mod_eq_of_lt (by omega)]
  omega

/-- C5 counterexample: with counters actual-balloon = 1 MB and
available = 2 MB the `u64` subtraction wraps, so derived used memory
(2^64 − 1) exceeds derived total (1). -/
theorem C5_memory_underflow_counterexample :
    (get_memory_stats (some badMemStats) 0).2 < (get_memory_stats (some badMemStats) 0).1 := by
  decide

/-- C5 (amended): whenever the accumulated available and unused
counters do not exceed the accumulated balloon size (as their libvirt
semantics guarantees) and the balloon value is a `u64`, derived used
memory never exceeds derived total; the coarse fallback path satisfies
the bound unconditionally. -/
theorem C5_memory_used_le_total (stats : List MemStat) (mem : Nat)
    (havail : (memStatsFold stats mem).2.1 ≤ (memStatsFold stats mem).1)
    (hunused : (memStatsFold stats mem).2.2 ≤ (memStatsFold stats mem).1)
    (hactual : (memStatsFold stats mem).1 < 2 ^ 64) :
    (get_memory_stats (some stats) mem).1 ≤ (get_memory_stats (some stats) mem).2 ∧
    (get_memory_stats none mem).1 ≤ (get_memory_stats none mem).2 := by
  constructor
  · show (get_memory_stats_detailed stats mem).1 ≤ (get_memory_stats_detailed stats mem).2
    unfold get_memory_stats_detailed
    simp only
    split
    · exact u64sub_le_of_le _ _ havail hactual
    · split
      · exact u64sub_le_of_le _ _ hunused hactual
      · exact le_refl _
  · exact le_refl _

/-- Witness for C5: with balloon 2 MB and available 1 MB the
hypotheses hold and used ≤ total. -/
theorem C5_memory_used_le_total_witness :
    (get_memory_stats (some okMemStats) 0).1 ≤ (get_memory_stats (some okMemStats) 0).2 :=
  (C5_memory_used_le_total okMemStats 0 (by decide) (by decide) (by decide)).1

/-- C7 counterexample: the claim quantifies over every window.  For a
window too large for `chrono::Duration::from_std` (here 2^80 seconds)
the code substitutes the zero duration, so a stored point strictly
newer than now − w (t = 95, now = 100) is not returned. -/
theorem C7_huge_window_counterexample :
    (c7state (metricKey (lit "vm") (lit "cpu_usage"))).filter
        (fun p => (100 : Int) - ((2 ^ 80 : Nat) : Int) < p.timestamp) =
      [⟨95, 7⟩] ∧
    get_metric_history c7state (lit "vm") (lit "cpu_usage") 100 (2 ^ 80) = [] := by
  constructor
  · norm_num [c7state, store_metric, metricKey]
  · norm_num [c7state, get_metric_history, store_metric, metricKey, fromStdOk]

/-- C7 (amended): for every window convertible to a chrono duration,
the history query returns exactly the stored points with timestamp
strictly newer than now − w; unconditionally the result is a sublist of
the stored series (so insertion order is kept), every returned point
passes the effective cutoff, sortedness of the stored series carries
over, storing appends to the addressed series and leaves every other
series unchanged, and a purge pass only shrinks a series. -/
theorem C7_get_history_exact (h : MetricsHistory) (vmId mt : Str) (now : Int)
    (w : Nat) (v : ℚ) :
    (fromStdOk w = true →
      get_metric_history h vmId mt now w =
        (h (metricKey vmId mt)).filter (fun p => now - (w : Int) < p.timestamp)) ∧
    (get_metric_history h vmId mt now w).Sublist (h (metricKey vmId mt)) ∧
    (∀ p ∈ get_metric_history h vmId mt now w,
      now - (if fromStdOk w then (w : Int) else 0) < p.timestamp) ∧
    ((h (metricKey vmId mt)).Pairwise (fun a b => a.timestamp ≤ b.timestamp) →
      (get_metric_history h vmId mt now w).Pairwise
        (fun a b => a.timestamp ≤ b.timestamp)) ∧
    (store_metric h vmId mt now v (metricKey vmId mt) =
      h (metricKey vmId mt) ++ [⟨now, v⟩]) ∧
    (∀ k, k ≠ metricKey vmId mt → store_metric h vmId mt now v k = h k) ∧
    (cleanup_old_metrics h now (metricKey vmId mt)).Sublist (h (metricKey vmId mt)) := by
  refine ⟨?_, ?_, ?_, ?_, ?_, ?_, ?_⟩
  · intro hw
    simp [get_metric_history, hw]
  · exact List.filter_sublist _
  · intro p hp
    simp only [get_metric_history, List.mem_filter, decide_eq_true_eq] at hp
    exact hp.2
  · intro hpw
    exact hpw.sublist (List.filter_sublist _)
  · simp [store_metric]
  · intro k hk
    simp [store_metric, hk]
  · exact List.filter_sublist _

/-- Witness for C7: a series with one point at t = 95 queried at
now = 100 with a 10-second window returns exactly the filtered series,
sorted. -/
theorem C7_get_history_exact_witness :
    get_metric_history c7state (lit "vm") (lit "cpu_usage") 100 10 =
      (c7state (metricKey (lit "vm") (lit "cpu_usage"))).filter
        (fun p => (100 : Int) - ((10 : Nat) : Int) < p.timestamp) ∧
    (get_metric_history c7state (lit "vm") (lit "cpu_usage") 100 10).Pairwise
      (fun a b => a.timestamp ≤ b.timestamp) := by
  have h := C7_get_history_exact c7state (lit "vm") (lit "cpu_usage") 100 10 0
  refine ⟨h.1 (by decide), h.2.2.2.1 ?_⟩
  norm_num [c7state, store_metric, metricKey]

/-- C8: a configuration with an empty name, memory below 128 MB, zero
vCPUs or disk size below 1 GB makes create fail with an
invalid-configuration error before any side effect: no hypervisor
request is issued and the cache is unchanged. -/
theorem C8_invalid_config_rejected_before_side_effects
    (cache : VmCache) (config : VmConfig) (o : CreateOracle)
    (hbad : config.name = [] ∨ config.memory < 128 ∨ config.vcpus = 0 ∨
      config.disk_size < 1) :
    (∃ msg, (create_vm cache config o).1 = .error (.invalidVmConfig msg)) ∧
    (create_vm cache config o).2.1 = cache ∧
    (create_vm cache config o).2.2 = [] := by
  have hval : ∃ msg, validate_vm_config config = .error (.invalidVmConfig msg) := by
    unfold validate_vm_config
    split_ifs with h1 h2 h3 h4
    · exact ⟨_, rfl⟩
    · exact ⟨_, rfl⟩
    · exact ⟨_, rfl⟩
    · exact ⟨_, rfl⟩
    · rcases hbad with h | h | h | h <;> contradiction
  obtain ⟨msg, hmsg⟩ := hval
  refine ⟨⟨msg, ?_⟩, ?_, ?_⟩ <;> simp [create_vm, hmsg]

/-- Witness for C8 at a concrete invalid configuration (64 MB of
memory): create rejects it, leaving the cache and the request trace
empty. -/
theorem C8_invalid_config_rejected_witness :
    (∃ msg, (create_vm emptyCache cfgBad createOkOracle).1 =
      .error (.invalidVmConfig msg)) ∧
    (create_vm emptyCache cfgBad createOkOracle).2.1 = emptyCache ∧
    (create_vm emptyCache cfgBad createOkOracle).2.2 = [] :=
  C8_invalid_config_rejected_before_side_effects emptyCache cfgBad createOkOracle
    (Or.inr (Or.inl (by norm_num [cfgBad, cfgTest])))

/-- C9: delete stops an active domain first, then undefines, and
removes the cache entry only after the undefine succeeded; when any
step fails it returns an error with the cache (hence the entry for the
id) untouched. -/
theorem C9_delete_cache_removal_after_undefine
    (cache : VmCache) (vm_id : Str) (o : LifecycleOracle) :
    ((delete_vm cache vm_id o).1 = .ok () →
      o.undefineOk = true ∧
      (delete_vm cache vm_id o).2.1 = cacheRemove cache vm_id ∧
      (delete_vm cache vm_id o).2.2 =
        (if o.isActive then (stop_vm o).2 else []) ++ [.undefineReq]) ∧
    (∀ e, (delete_vm cache vm_id o).1 = .error e →
      (delete_vm cache vm_id o).2.1 = cache ∧
      ∀ v, cache vm_id = some v → (delete_vm cache vm_id o).2.1 vm_id = some v) := by
  obtain ⟨found, aq, act, sh, de, un⟩ := o
  cases found <;> cases aq <;> cases act <;> cases sh <;> cases de <;> cases un <;>
    simp [delete_vm, stop_vm]

/-- Witness for C9: a fully successful run removes the entry and ends
its request trace with the undefine; a run whose undefine fails leaves
the entry for "d1" in the cache. -/
theorem C9_delete_cache_removal_witness :
    (delete_vm oneCache (lit "d1") delOkOracle).2.1 = cacheRemove oneCache (lit "d1") ∧
    (delete_vm oneCache (lit "d1") delOkOracle).2.2 =
      (if delOkOracle.isActive then (stop_vm delOkOracle).2 else []) ++ [.undefineReq] ∧
    (delete_vm oneCache (lit "d1") delFailOracle).2.1 (lit "d1") =
      some ⟨lit "d1", lit "vm-one"⟩ := by
  have hok := (C9_delete_cache_removal_after_undefine oneCache (lit "d1") delOkOracle).1 rfl
  have herr := (C9_delete_cache_removal_after_undefine oneCache (lit "d1") delFailOracle).2
    (.vmOperationFailed "Failed to delete VM") rfl
  exact ⟨hok.2.1, hok.2.2, herr.2 ⟨lit "d1", lit "vm-one"⟩ rfl⟩

end KvmSpec
